import Mathlib

/-!
Shallow embedding of the Spectra taste-vector recommendation core
(`backend/taste_vector.py`, `backend/recommender.py`, `backend/taste_dimensions.py`,
`backend/db/media.py`).

Vectors are modelled as `List ℚ` (numpy float arrays with exact arithmetic);
the external collaborators (sentence-transformer embedding provider, pgvector
similarity index, rating repository) are modelled as function-valued fields of
a `Db` record, mirroring the attributes of `Database` that the recommender
calls.  Python exceptions become `Except`/`Option` results.
-/

namespace Spectra

/-- Dot product of two vectors, `np.dot` / row of a matrix product.
`zipWith` truncates to the shorter operand, as numpy broadcasting never
arises on the code paths modelled here (lengths always match). -/
def dot (u v : List ℚ) : ℚ :=
  (List.zipWith (· * ·) u v).sum

/-- Squared Euclidean norm, `np.linalg.norm(v) ** 2`. -/
def normSq (v : List ℚ) : ℚ :=
  dot v v

/-- Scalar multiple of a vector, `c * v` elementwise. -/
def smul (c : ℚ) (v : List ℚ) : List ℚ :=
  v.map (fun x => c * x)

/-- Elementwise sum of two vectors, `a + b` in numpy. -/
def vadd (u v : List ℚ) : List ℚ :=
  List.zipWith (· + ·) u v

/-- One entry of `TASTE_DIMENSIONS` in `backend/taste_dimensions.py`
(the `examples` payload is not consumed by the core and is omitted). -/
structure TasteDim where
  id : String
  name : String
  description : String
  positiveLabel : String
  negativeLabel : String
  positivePrompt : String
  negativePrompt : String
  deriving DecidableEq

/-- The `TASTE_DIMENSIONS` constant: the 8 named taste axes. -/
def tasteDimensions : List TasteDim :=
  [ { id := "emotional_tone", name := "Emotional Tone",
      description := "The overall emotional quality and mood of the experience",
      positiveLabel := "Light & Joyful", negativeLabel := "Dark & Melancholic",
      positivePrompt := "uplifting, joyful, light-hearted, cheerful, optimistic, bright, sunny, feel-good, heartwarming, delightful, playful, buoyant, spirited, gleeful, radiant",
      negativePrompt := "dark, melancholic, somber, bleak, depressing, gloomy, heavy, brooding, tragic, mournful, anguished, despairing, haunting, oppressive, grief-stricken" },
    { id := "energy_intensity", name := "Energy & Intensity",
      description := "The level of power, force, and energetic engagement",
      positiveLabel := "Intense & Powerful", negativeLabel := "Calm & Gentle",
      positivePrompt := "intense, powerful, energetic, aggressive, forceful, explosive, visceral, raw, unrelenting, fierce, vigorous, dynamic, kinetic, overwhelming, electrifying",
      negativePrompt := "calm, gentle, serene, peaceful, quiet, subdued, tranquil, soft, mellow, restrained, understated, delicate, soothing, placid, contemplative" },
    { id := "complexity", name := "Complexity",
      description := "The degree of layering, intricacy, and structural sophistication",
      positiveLabel := "Complex & Layered", negativeLabel := "Simple & Minimalist",
      positivePrompt := "complex, layered, intricate, sophisticated, nuanced, multifaceted, elaborate, dense, convoluted, rich, textured, deep, labyrinthine, ornate, baroque",
      negativePrompt := "simple, minimalist, straightforward, uncomplicated, direct, clean, sparse, stripped-down, basic, pure, essential, unadorned, austere, economical, transparent" },
    { id := "abstractness", name := "Abstractness",
      description := "The balance between literal representation and symbolic interpretation",
      positiveLabel := "Abstract & Symbolic", negativeLabel := "Concrete & Literal",
      positivePrompt := "abstract, symbolic, metaphorical, conceptual, surreal, ambiguous, enigmatic, dreamlike, impressionistic, non-literal, allegorical, esoteric, mystical, poetic, transcendent",
      negativePrompt := "concrete, literal, realistic, straightforward, explicit, clear, grounded, tangible, documentary, matter-of-fact, plain, unambiguous, direct, practical, factual" },
    { id := "aesthetic_style", name := "Aesthetic Style",
      description := "The production quality and stylistic presentation approach",
      positiveLabel := "Polished & Refined", negativeLabel := "Raw & Gritty",
      positivePrompt := "polished, refined, elegant, sophisticated, pristine, stylized, ornate, curated, glossy, meticulous, manicured, sleek, luxurious, sumptuous, immaculate",
      negativePrompt := "raw, gritty, rough, unpolished, rough-hewn, lo-fi, scrappy, rugged, unvarnished, stripped-down, visceral, crude, weathered, DIY, unfiltered" },
    { id := "intellectualism", name := "Intellectualism",
      description := "The degree of cognitive engagement and philosophical depth",
      positiveLabel := "Cerebral & Analytical", negativeLabel := "Intuitive & Visceral",
      positivePrompt := "cerebral, analytical, thought-provoking, philosophical, intellectual, contemplative, theoretical, questioning, introspective, heady, erudite, profound, meditative, scholarly, dialectical",
      negativePrompt := "intuitive, visceral, instinctive, emotional, sensory, immediate, gut-level, primal, spontaneous, unreflective, straightforward, surface-level, experiential, raw, feeling-driven" },
    { id := "conventionality", name := "Conventionality",
      description := "The degree of adherence to or departure from established forms",
      positiveLabel := "Experimental & Avant-garde", negativeLabel := "Traditional & Familiar",
      positivePrompt := "experimental, avant-garde, unconventional, innovative, groundbreaking, boundary-pushing, radical, challenging, non-traditional, daring, subversive, transgressive, revolutionary, pioneering, iconoclastic",
      negativePrompt := "traditional, conventional, classic, familiar, mainstream, established, orthodox, time-tested, accessible, standard, safe, typical, canonical, formulaic, predictable" },
    { id := "worldview", name := "Worldview",
      description := "The philosophical outlook and perspective on human experience",
      positiveLabel := "Hopeful & Optimistic", negativeLabel := "Cynical & Dark",
      positivePrompt := "hopeful, optimistic, uplifting, idealistic, affirmative, positive, inspiring, encouraging, redemptive, life-affirming, warm, generous, humanistic, compassionate, faith-in-humanity",
      negativePrompt := "cynical, pessimistic, nihilistic, bleak, disillusioned, skeptical, bitter, jaded, despairing, misanthropic, harsh, unforgiving, fatalistic, grim, world-weary" } ]

/-- `self.dimension_names = [d['name'] for d in TASTE_DIMENSIONS]`. -/
def dimensionNames : List String :=
  tasteDimensions.map (fun d => d.name)

/-- `TasteVectorEngine` after construction: the loaded direction-vector
matrix (`self.direction_vectors`, 8 rows of length 384). -/
structure TasteVectorEngine where
  directionVectors : List (List ℚ)
  deriving DecidableEq

/-- `TasteVectorEngine.__init__`: loads the direction-vector matrix once and
asserts `direction_vectors.shape == (8, 384)`.  A failed assert is a fatal
startup error, modelled as `none`.  No other validation is performed. -/
def initTasteVectorEngine (directionVectors : List (List ℚ)) :
    Option TasteVectorEngine :=
  if directionVectors.length = 8 ∧ ∀ r ∈ directionVectors, r.length = 384 then
    some ⟨directionVectors⟩
  else
    none

/-- `TasteVectorEngine.project` on a single embedding (the `ndim == 1`
branch): `self.direction_vectors @ embedding`, i.e. one dot product of each
basis direction row with the embedding.  The `else` branch is the same map
applied row-wise to a batch and is not needed by any claim. -/
def project (engine : TasteVectorEngine) (embedding : List ℚ) : List ℚ :=
  engine.directionVectors.map (fun d => dot d embedding)

/-- A row returned by `MediaRepository.search_by_taste` /
`search_by_embedding` (the similarity index).  `year` is `None`-able in the
database; `metadata` is an opaque JSON payload passed through unchanged and
is omitted from the model. -/
structure SearchItem where
  id : String
  title : String
  mediaType : String
  year : Option ℤ
  description : String
  similarity : ℚ
  deriving DecidableEq

/-- A row returned by `MediaRepository.get_item_by_id`. -/
structure MediaItem where
  id : String
  title : String
  mediaType : String
  year : Option ℤ
  description : String
  tasteVector : List ℚ
  deriving DecidableEq

/-- A row returned by `UserRepository.get_user_ratings_with_embeddings`:
the numeric rating weight plus the rated item's stored vectors. -/
structure RatingRow where
  rating : ℚ
  embedding : List ℚ
  tasteVector : List ℚ
  deriving DecidableEq

/-- The external collaborators reached through `self.db` (similarity index,
item repository, rating repository), modelled as unconstrained functions:
the recommender makes no assumption about what they return. -/
structure Db where
  searchByEmbedding : List ℚ → String → ℕ → List SearchItem
  searchByTaste : List ℚ → String → ℕ → List SearchItem
  getItemById : String → Option MediaItem
  getUserRatingsWithEmbeddings : String → List RatingRow
  getRatedItemIds : String → List String

/-- An entry of a recommendation bucket after the formatting loop in
`SpectraRecommender.recommend` / `recommend_for_user`. -/
structure FormattedItem where
  id : String
  title : String
  mediaType : String
  year : Option ℤ
  description : String
  similarity : ℚ
  deriving DecidableEq

/-- The formatting step: description text is truncated to 200 characters
with an ellipsis marker if longer; everything else passes through. -/
def formatItem (it : SearchItem) : FormattedItem :=
  { id := it.id, title := it.title, mediaType := it.mediaType,
    year := it.year,
    description :=
      if 200 < it.description.length then it.description.take 200 ++ "..."
      else it.description,
    similarity := it.similarity }

/-- Python truthiness of an optional integer: `None` and `0` are falsy.
Used for `if min_year or max_year:`, `if year:`, `if min_year and ...`. -/
def intTruthy : Option ℤ → Bool
  | none => false
  | some n => n != 0

/-- The body of the year filter in `recommend`: an item is dropped exactly
when its year is truthy and violates a truthy bound
(`if min_year and year < min_year: continue`, likewise for `max_year`). -/
def yearPass (minYear maxYear : Option ℤ) (year : Option ℤ) : Bool :=
  if intTruthy year then
    if intTruthy minYear && decide (year.getD 0 < minYear.getD 0) then false
    else if intTruthy maxYear && decide (maxYear.getD 0 < year.getD 0) then false
    else true
  else true

/-- The default media-type list used when the caller passes `None`. -/
def defaultMediaTypes : List String :=
  ["movie", "music", "book"]

/-- The query argument of `recommend`: free text, or a raw numeric sequence
(the `list` and `np.ndarray` branches behave identically). -/
inductive Query where
  | text (s : String)
  | vec (v : List ℚ)
  deriving DecidableEq

/-- The dispatch prologue of `recommend`: a text query is embedded and
searched in embedding space (`use_embedding_search = True`); a raw vector is
searched in embedding space exactly when its length is 384, otherwise in
taste space.  No length is ever rejected. -/
def querySpace (embedFn : String → List ℚ) : Query → Bool × List ℚ
  | .text s => (true, embedFn s)
  | .vec v => (v.length == 384, v)

/-- The per-media-type loop of `SpectraRecommender.recommend` given the
already-decided search space: fetch `top_k * 2` candidates, apply the year
filter when at least one bound is truthy, truncate to `top_k`, format. -/
def recommendCore (db : Db) (useEmbeddingSearch : Bool) (searchVector : List ℚ)
    (mediaTypes : Option (List String)) (topK : ℕ)
    (minYear maxYear : Option ℤ) : List (String × List FormattedItem) :=
  (mediaTypes.getD defaultMediaTypes).map (fun mediaType =>
    let items :=
      if useEmbeddingSearch then
        db.searchByEmbedding searchVector mediaType (topK * 2)
      else
        db.searchByTaste searchVector mediaType (topK * 2)
    let items :=
      if intTruthy minYear || intTruthy maxYear then
        items.filter (fun it => yearPass minYear maxYear it.year)
      else items
    (mediaType, (items.take topK).map formatItem))

/-- `SpectraRecommender.recommend`.  The returned Python dict (insertion
ordered, keyed by media type) is modelled as an association list. -/
def recommend (db : Db) (embedFn : String → List ℚ) (query : Query)
    (mediaTypes : Option (List String)) (topK : ℕ)
    (minYear maxYear : Option ℤ) : List (String × List FormattedItem) :=
  recommendCore db (querySpace embedFn query).1 (querySpace embedFn query).2
    mediaTypes topK minYear maxYear

/-- `SpectraRecommender.find_similar`: looks up the source item (raising
`ValueError` if absent, modelled as `.error`), recommends from its taste
vector with `top_k + 1` when exclusion is on, then filters the source id out
of every bucket and re-truncates to `top_k`. -/
def findSimilar (db : Db) (embedFn : String → List ℚ) (itemId : String)
    (mediaTypes : Option (List String)) (topK : ℕ)
    (excludeSameItem : Bool) :
    Except String (List (String × List FormattedItem)) :=
  match db.getItemById itemId with
  | none => .error ("Item " ++ itemId ++ " not found")
  | some sourceItem =>
    let results := recommend db embedFn (.vec sourceItem.tasteVector)
      mediaTypes (if excludeSameItem then topK + 1 else topK) none none
    if excludeSameItem then
      .ok (results.map (fun p =>
        (p.1, (p.2.filter (fun it => it.id != itemId)).take topK)))
    else
      .ok results

/-- Weighted elementwise sum of rows, the numerator of
`np.average(rows, axis=0, weights=ws)`: `Σ wᵢ · rowᵢ`. -/
def weightedSum : List ℚ → List (List ℚ) → List ℚ
  | [w], [r] => smul w r
  | w :: ws, r :: rs => vadd (smul w r) (weightedSum ws rs)
  | _, _ => []

/-- `np.average(rows, axis=0, weights=ws)`: the weighted sum divided by the
weight total.  numpy raises `ZeroDivisionError` when the weights sum to
zero, modelled as `none`; no other validation of the weights happens. -/
def weightedAverage (ws : List ℚ) (rows : List (List ℚ)) : Option (List ℚ) :=
  if ws.sum = 0 then none
  else some ((weightedSum ws rows).map (fun x => x / ws.sum))

/-- One entry of the per-dimension breakdown built by
`compute_user_taste_profile`. -/
structure BreakdownEntry where
  dimension : String
  score : ℚ
  tendency : String
  description : String
  deriving DecidableEq

/-- The breakdown loop of `compute_user_taste_profile`: zip the dimension
names with the aggregate taste vector; the tendency label is the positive
label for score > 0.1, the negative label for score < −0.1, else
"Balanced". -/
def breakdownOf (tasteVector : List ℚ) : List BreakdownEntry :=
  (tasteDimensions.zip tasteVector).map (fun p =>
    { dimension := p.1.name, score := p.2,
      tendency :=
        if p.2 > (1 : ℚ) / 10 then p.1.positiveLabel
        else if p.2 < -((1 : ℚ) / 10) then p.1.negativeLabel
        else "Balanced",
      description := p.1.description })

/-- Result of `compute_user_taste_profile`: `noRatings` models the explicit
`return None` for an empty rating list; `weightsSumZero` models the
`ZeroDivisionError` numpy raises from `np.average` when the rating weights
sum to zero. -/
inductive ProfileResult where
  | noRatings
  | weightsSumZero
  | profile (embedding384 : List ℚ) (tasteVector8 : List ℚ)
      (breakdown : List BreakdownEntry) (numRatings : ℕ)
  deriving DecidableEq

/-- `SpectraRecommender.compute_user_taste_profile`: fetch the rating rows,
return the no-profile signal when there are none, otherwise average the
embeddings and the taste vectors independently, weighted by rating, and
attach the breakdown and the rating count. -/
def computeUserTasteProfile (db : Db) (userId : String) : ProfileResult :=
  let ratings := db.getUserRatingsWithEmbeddings userId
  if ratings.isEmpty then .noRatings
  else
    let weights := ratings.map (fun r => r.rating)
    match weightedAverage weights (ratings.map (fun r => r.embedding)),
        weightedAverage weights (ratings.map (fun r => r.tasteVector)) with
    | some weightedEmbedding, some weightedTasteVector =>
        .profile weightedEmbedding weightedTasteVector
          (breakdownOf weightedTasteVector) ratings.length
    | _, _ => .weightsSumZero

/-- `SpectraRecommender.recommend_for_user`: compute the profile (empty dict
for a user with no profile); collect rated ids when exclusion is on;
per media type fetch `top_k * 3` candidates by the aggregate 384-d
embedding, drop rated ids, truncate to `top_k`, format.  The numpy
`ZeroDivisionError` escaping `compute_user_taste_profile` is `.error`. -/
def recommendForUser (db : Db) (userId : String)
    (mediaTypes : Option (List String)) (topK : ℕ) (excludeRated : Bool) :
    Except String (List (String × List FormattedItem)) :=
  match computeUserTasteProfile db userId with
  | .noRatings => .ok []
  | .weightsSumZero => .error "ZeroDivisionError: weights sum to zero"
  | .profile embedding384 _ _ _ =>
    let ratedItemIds := if excludeRated then db.getRatedItemIds userId else []
    .ok ((mediaTypes.getD defaultMediaTypes).map (fun mediaType =>
      let items := db.searchByEmbedding embedding384 mediaType (topK * 3)
      let filtered := items.filter (fun it => !(ratedItemIds.contains it.id))
      (mediaType, (filtered.take topK).map formatItem)))

/-- One entry of `dimension_matches` in `explain_match`. -/
structure DimMatch where
  dimension : String
  userScore : ℚ
  itemScore : ℚ
  contribution : ℚ
  aligned : Bool
  deriving DecidableEq

/-- Result of `explain_match`.  The source computes
`overall_similarity = np.dot(u, t) / (norm(u) * norm(t))` in floating
point; the two norms are irrational square roots, so the model carries the
exact numerator `simDot = ⟨u, t⟩` and the exact square of the denominator
`simNormSqProd = ‖u‖² · ‖t‖²`; the similarity value is
`simDot / sqrt simNormSqProd`. -/
structure ExplainResult where
  itemId : String
  itemTitle : String
  itemMediaType : String
  simDot : ℚ
  simNormSqProd : ℚ
  dimensionMatches : List DimMatch
  explanation : String
  deriving DecidableEq, Inhabited

/-- The two `raise ValueError` sites of `explain_match`, in source order:
a missing item, a user vector of the wrong length, an item vector of the
wrong length.  The raised messages differ, so the failures are
distinguishable. -/
inductive ExplainError where
  | notFound (itemId : String)
  | userVectorLength (len : ℕ)
  | itemVectorLength (len : ℕ)
  deriving DecidableEq

/-- The explanation-text loop of `explain_match`: among the top 3 entries of
the sorted dimension matches, the aligned ones contribute a phrase built
from the positive prompt when both scores are positive and from the
negative prompt when both are negative; phrases are joined with ". ", with
a generic fallback when none exists. -/
def explanationText (sortedMatches : List DimMatch) : String :=
  let topMatches := (sortedMatches.take 3).filter (fun d => d.aligned)
  let parts := topMatches.filterMap (fun m =>
    match tasteDimensions.find? (fun d => d.name == m.dimension) with
    | none => none
    | some dim =>
      if m.userScore > (0 : ℚ) ∧ m.itemScore > (0 : ℚ) then
        some ("Both lean towards " ++ m.dimension.toLower ++ ": " ++
          ((dim.positivePrompt.splitOn ".").headD "").toLower)
      else if m.userScore < (0 : ℚ) ∧ m.itemScore < (0 : ℚ) then
        some ("Both lean towards " ++ m.dimension.toLower ++ ": " ++
          ((dim.negativePrompt.splitOn ".").headD "").toLower)
      else none)
  if parts.isEmpty then "General aesthetic alignment"
  else String.intercalate ". " parts

/-- The successful branch of `explain_match`: the similarity numerator and
squared denominator, the per-dimension contributions sorted by descending
absolute contribution (stably, like Python `list.sort`), and the
explanation text. -/
def explainOk (item : MediaItem) (userTasteVector : List ℚ) : ExplainResult :=
  let itemTasteVector := item.tasteVector
  let dimensionMatches := dimensionNames.enum.map (fun p =>
    let userScore := userTasteVector.getD p.1 0
    let itemScore := itemTasteVector.getD p.1 0
    { dimension := p.2, userScore := userScore, itemScore := itemScore,
      contribution := userScore * itemScore,
      aligned := decide (userScore * itemScore > 0) : DimMatch })
  let sortedMatches := dimensionMatches.mergeSort
    (fun a b => decide (|b.contribution| ≤ |a.contribution|))
  { itemId := item.id, itemTitle := item.title,
    itemMediaType := item.mediaType,
    simDot := dot userTasteVector itemTasteVector,
    simNormSqProd := normSq userTasteVector * normSq itemTasteVector,
    dimensionMatches := sortedMatches,
    explanation := explanationText sortedMatches }

/-- `SpectraRecommender.explain_match`: item lookup first (`ValueError`
"not found" when absent), then the two length validations, then the
successful payload of `explainOk`. -/
def explainMatch (db : Db) (itemId : String) (userTasteVector : List ℚ) :
    Except ExplainError ExplainResult :=
  match db.getItemById itemId with
  | none => .error (.notFound itemId)
  | some item =>
    if userTasteVector.length ≠ 8 then
      .error (.userVectorLength userTasteVector.length)
    else if item.tasteVector.length ≠ 8 then
      .error (.itemVectorLength item.tasteVector.length)
    else
      .ok (explainOk item userTasteVector)

/-! Concrete fixtures used to instantiate the theorems below. -/

/-- A collaborator record whose every query comes back empty. -/
def emptyDb : Db :=
  { searchByEmbedding := fun _ _ _ => []
    searchByTaste := fun _ _ _ => []
    getItemById := fun _ => none
    getUserRatingsWithEmbeddings := fun _ => []
    getRatedItemIds := fun _ => [] }

/-- A trivial embedding provider for fixtures that never embed text. -/
def noEmbed : String → List ℚ :=
  fun _ => []

/-- An all-ones 8 × 384 direction matrix (any engine works for linearity). -/
def engineOnes : TasteVectorEngine :=
  ⟨List.replicate 8 (List.replicate 384 1)⟩

/-- A concrete 384-length embedding. -/
def vecA : List ℚ :=
  List.replicate 384 1

/-- Another concrete 384-length embedding. -/
def vecB : List ℚ :=
  List.replicate 384 2

/-- A marker row only the taste-space index returns. -/
def tasteHit : SearchItem :=
  { id := "taste-hit", title := "T", mediaType := "movie", year := some 2000,
    description := "d", similarity := 9 / 10 }

/-- A marker row only the embedding-space index returns. -/
def embedHit : SearchItem :=
  { id := "embed-hit", title := "E", mediaType := "movie", year := some 2001,
    description := "e", similarity := 8 / 10 }

/-- Fixture whose two search spaces return distinguishable markers. -/
def db2 : Db :=
  { emptyDb with
    searchByTaste := fun _ _ _ => [tasteHit]
    searchByEmbedding := fun _ _ _ => [embedHit] }

/-- A catalog item with a well-formed 8-length taste vector. -/
def item3 : MediaItem :=
  { id := "a", title := "A", mediaType := "movie", year := none,
    description := "", tasteVector := [1, 0, 0, 0, 0, 0, 0, 0] }

/-- Fixture holding exactly the item `"a"`. -/
def db3 : Db :=
  { emptyDb with getItemById := fun i => if i == "a" then some item3 else none }

/-- A source item for `find_similar`. -/
def item4 : MediaItem :=
  { id := "src", title := "S", mediaType := "movie", year := some 1999,
    description := "s", tasteVector := [1, 0, 0, 0, 0, 0, 0, 0] }

/-- A search row whose id collides with the source item. -/
def selfHit : SearchItem :=
  { id := "src", title := "S", mediaType := "movie", year := some 1999,
    description := "s", similarity := 1 }

/-- A search row distinct from the source item. -/
def otherHit : SearchItem :=
  { id := "other", title := "O", mediaType := "movie", year := some 1980,
    description := "o", similarity := 7 / 10 }

/-- Fixture where the taste index returns the source item followed by
another item, so exclusion is observable. -/
def db4 : Db :=
  { emptyDb with
    getItemById := fun i => if i == "src" then some item4 else none
    searchByTaste := fun _ _ _ => [selfHit, otherHit] }

/-- An item whose stored taste vector is the zero vector. -/
def item5 : MediaItem :=
  { id := "z", title := "Z", mediaType := "book", year := none,
    description := "", tasteVector := List.replicate 8 0 }

/-- Fixture holding exactly the degenerate item `"z"`. -/
def db5 : Db :=
  { emptyDb with getItemById := fun i => if i == "z" then some item5 else none }

/-- A rating row with weight zero. -/
def rating6a : RatingRow :=
  { rating := 0, embedding := [3, 4], tasteVector := [1, 0] }

/-- A rating row with weight one. -/
def rating6b : RatingRow :=
  { rating := 1, embedding := [5, 7], tasteVector := [2, 0] }

/-- A single rating row with a negative weight. -/
def rating6c : RatingRow :=
  { rating := -2, embedding := [3, 4], tasteVector := [1, 0] }

/-- Fixture: user `"u"` has a zero-weight and a unit-weight rating; user
`"v"` has a single rating of weight −2. -/
def db6 : Db :=
  { emptyDb with
    getUserRatingsWithEmbeddings := fun u =>
      if u == "u" then [rating6a, rating6b]
      else if u == "v" then [rating6c]
      else [] }

/-- An 8 × 384 all-zero direction matrix: right shape, every row far from
unit norm. -/
def zeroBasis : List (List ℚ) :=
  List.replicate 8 (List.replicate 384 0)

/-- A search row whose stored year is the integer 0. -/
def year0Item : SearchItem :=
  { id := "y0", title := "Y", mediaType := "movie", year := some 0,
    description := "d", similarity := 1 / 2 }

/-- Fixture whose taste index returns only the year-0 item. -/
def db9 : Db :=
  { emptyDb with searchByTaste := fun _ _ _ => [year0Item] }

/-! Helper lemmas. -/

/-- Dot product with an empty left operand. -/
@[simp]
theorem dot_nil_left (v : List ℚ) : dot [] v = 0 := by
  simp [dot]

/-- Dot product with an empty right operand. -/
@[simp]
theorem dot_nil_right (u : List ℚ) : dot u [] = 0 := by
  simp [dot]

/-- Cons-unfolding of the dot product. -/
@[simp]
theorem dot_cons (x y : ℚ) (u v : List ℚ) :
    dot (x :: u) (y :: v) = x * y + dot u v := by
  simp [dot]

/-- A squared norm is non-negative. -/
theorem normSq_nonneg (v : List ℚ) : 0 ≤ normSq v := by
  induction v with
  | nil => simp [normSq]
  | cons x v ih =>
    have hx : 0 ≤ x * x := mul_self_nonneg x
    simp only [normSq, dot_cons] at *
    nlinarith

/-- Cauchy–Schwarz for list dot products. -/
theorem dot_sq_le_normSq_mul (u v : List ℚ) :
    (dot u v) ^ 2 ≤ normSq u * normSq v := by
  induction u generalizing v with
  | nil =>
    simp [normSq]
  | cons x u ih =>
    cases v with
    | nil =>
      simp [normSq]
    | cons y v =>
      have hA : 0 ≤ dot u u := normSq_nonneg u
      have hB : 0 ≤ dot v v := normSq_nonneg v
      have hd : dot u v ^ 2 ≤ dot u u * dot v v := ih v
      simp only [normSq, dot_cons]
      rcases eq_or_lt_of_le hB with hB0 | hBpos
      · have hd0 : dot u v = 0 := by
          nlinarith [sq_nonneg (dot u v)]
        rw [hd0, ← hB0]
        nlinarith [mul_nonneg hA (sq_nonneg y)]
      · nlinarith [sq_nonneg (x * dot v v - y * dot u v),
          mul_nonneg (sub_nonneg.mpr hd) (sq_nonneg y)]

/-- Dot product distributes over elementwise sums of equal-length vectors. -/
theorem dot_vadd_right (d a b : List ℚ) (h : a.length = b.length) :
    dot d (vadd a b) = dot d a + dot d b := by
  induction d generalizing a b with
  | nil => simp
  | cons x d ih =>
    cases a with
    | nil =>
      cases b with
      | nil => simp [vadd]
      | cons y b => simp at h
    | cons a₀ as =>
      cases b with
      | nil => simp at h
      | cons b₀ bs =>
        simp only [List.length_cons, Nat.succ_inj] at h
        simp only [vadd, List.zipWith_cons_cons, dot_cons]
        rw [show List.zipWith (· + ·) as bs = vadd as bs from rfl, ih as bs h]
        ring

/-- Dot product pulls scalars out of the right operand. -/
theorem dot_smul_right (d : List ℚ) (c : ℚ) (a : List ℚ) :
    dot d (smul c a) = c * dot d a := by
  induction d generalizing a with
  | nil => simp
  | cons x d ih =>
    cases a with
    | nil => simp [smul]
    | cons a₀ as =>
      simp only [smul, List.map_cons, dot_cons]
      rw [show (List.map (fun x => c * x) as) = smul c as from rfl, ih as]
      ring

/-- Zipping two images of the same list with addition is a single map. -/
theorem zipWith_add_map_map (l : List (List ℚ)) (f g : List ℚ → ℚ) :
    List.zipWith (· + ·) (l.map f) (l.map g) = l.map (fun d => f d + g d) := by
  induction l with
  | nil => rfl
  | cons d l ih => simp [ih]

/-- Dividing a scalar multiple by the scalar restores the vector. -/
theorem smul_map_div_cancel (r : ℚ) (hr : r ≠ 0) (v : List ℚ) :
    (smul r v).map (fun x => x / r) = v := by
  unfold smul
  rw [List.map_map]
  have h : ∀ a ∈ v, ((fun x => x / r) ∘ (fun x => r * x)) a = id a := by
    intro a _
    simp only [Function.comp_apply, id_eq]
    exact mul_div_cancel_left₀ a hr
  calc v.map ((fun x => x / r) ∘ (fun x => r * x))
      = v.map id := List.map_congr_left h
    _ = v := List.map_id v

/-- Looking a present key up in an association list built by tagging each
key with a function of it returns that function value. -/
theorem lookup_map_self {β : Type} (l : List String) (f : String → β)
    (mt : String) (hmt : mt ∈ l) :
    List.lookup mt (l.map (fun m => (m, f m))) = some (f mt) := by
  induction l with
  | nil => cases hmt
  | cons a l ih =>
    simp only [List.map_cons, List.lookup]
    rcases String.decEq mt a with h | h
    · have hb : (mt == a) = false := by
        simp [h]
      rw [hb]
      rcases List.mem_cons.mp hmt with rfl | hmem
      · exact absurd rfl h
      · exact ih hmem
    · subst h
      simp

/-- Every value stored in a bounded association list is bounded, so the
`getD []` of any lookup is bounded. -/
theorem lookup_getD_length_le (k : ℕ) (mt : String)
    (l : List (String × List FormattedItem))
    (h : ∀ p ∈ l, p.2.length ≤ k) :
    ((List.lookup mt l).getD []).length ≤ k := by
  induction l with
  | nil => simp
  | cons p l ih =>
    obtain ⟨key, val⟩ := p
    simp only [List.lookup]
    cases hb : (mt == key) with
    | true =>
      simpa using h (key, val) (List.mem_cons_self _ _)
    | false =>
      exact ih (fun q hq => h q (List.mem_cons_of_mem _ hq))

/-- The squared norm of an all-zero vector is zero. -/
theorem normSq_replicate_zero (n : ℕ) : normSq (List.replicate n (0 : ℚ)) = 0 := by
  induction n with
  | zero => simp [normSq]
  | succ n ih => simp [List.replicate_succ, normSq, dot] at ih ⊢

/-! Claim theorems. -/

/-- C1: for embeddings of length D = 384 and any scalar, `project` is an
exactly linear map — `project (a + b) = project a + project b` and
`project (c · a) = c · project a` — computed as the dot products of the
basis direction rows with the embedding, one output per basis row. -/
theorem c1_project_linear (E : TasteVectorEngine) (a b : List ℚ) (c : ℚ)
    (ha : a.length = 384) (hb : b.length = 384) :
    project E (vadd a b) = vadd (project E a) (project E b) ∧
    project E (smul c a) = smul c (project E a) ∧
    project E a = E.directionVectors.map (fun d => dot d a) ∧
    (project E a).length = E.directionVectors.length := by
  refine ⟨?_, ?_, rfl, by simp [project]⟩
  · unfold project vadd
    rw [zipWith_add_map_map]
    exact List.map_congr_left (fun d _ => dot_vadd_right d a b (ha.trans hb.symm))
  · unfold project smul
    rw [List.map_map]
    exact List.map_congr_left (fun d _ => by
      simpa using dot_smul_right d c a)

/-- C1 witness: the linearity theorem instantiated at concrete 384-length
embeddings and the scalar 3. -/
theorem c1_witness :
    (vecA.length = 384 ∧ vecB.length = 384) ∧
    project engineOnes (vadd vecA vecB) =
      vadd (project engineOnes vecA) (project engineOnes vecB) ∧
    project engineOnes (smul 3 vecA) = smul 3 (project engineOnes vecA) := by
  have ha : vecA.length = 384 := List.length_replicate 384 1
  have hb : vecB.length = 384 := List.length_replicate 384 2
  have h := c1_project_linear engineOnes vecA vecB 3 ha hb
  exact ⟨⟨ha, hb⟩, h.1, h.2.1⟩

/-- C7 counterexample: an 8 × 384 all-zero basis — every row has norm 0,
nowhere near 1.0 ± 1e-6 — passes construction, refuting the claim that a
non-unit-norm basis causes a fatal startup failure. -/
theorem c7_counterexample :
    (initTasteVectorEngine zeroBasis).isSome = true ∧
    normSq (zeroBasis.headD []) = 0 ∧
    ¬ |normSq (zeroBasis.headD []) - 1| ≤ 1 / 1000000 := by
  have hhead : zeroBasis.headD [] = List.replicate 384 (0 : ℚ) := rfl
  have h0 : normSq (zeroBasis.headD []) = 0 := by
    rw [hhead]
    exact normSq_replicate_zero 384
  have hcond : zeroBasis.length = 8 ∧ ∀ r ∈ zeroBasis, r.length = 384 := by
    refine ⟨List.length_replicate 8 _, fun r hr => ?_⟩
    rw [List.eq_of_mem_replicate hr]
    exact List.length_replicate 384 0
  refine ⟨?_, h0, ?_⟩
  · unfold initTasteVectorEngine
    rw [if_pos hcond]
    rfl
  · rw [h0]
    norm_num

/-- C7 amended: construction loads the basis once and validates only its
shape — exactly 8 rows, each of length 384 — failing fatally otherwise;
unit norm is not checked at construction (normalization happens offline in
the generator script). -/
theorem c7_amended (basis : List (List ℚ)) :
    (initTasteVectorEngine basis).isSome = true ↔
      (basis.length = 8 ∧ ∀ r ∈ basis, r.length = 384) := by
  unfold initTasteVectorEngine
  split
  · next h => simpa using h
  · next h => simpa using h

/-- C7 witness: the amended shape criterion applied to the all-zero basis. -/
theorem c7_witness :
    (zeroBasis.length = 8 ∧ ∀ r ∈ zeroBasis, r.length = 384) ∧
    (initTasteVectorEngine zeroBasis).isSome = true := by
  have hcond : zeroBasis.length = 8 ∧ ∀ r ∈ zeroBasis, r.length = 384 := by
    refine ⟨List.length_replicate 8 _, fun r hr => ?_⟩
    rw [List.eq_of_mem_replicate hr]
    exact List.length_replicate 384 0
  exact ⟨hcond, (c7_amended zeroBasis).mpr hcond⟩

/-- C8: a user whose rating sequence is empty gets the explicit no-profile
signal (a dedicated constructor, not a zero vector), and
`recommend_for_user` for such a user returns the empty result without
raising an error. -/
theorem c8_empty_ratings (db : Db) (userId : String)
    (mediaTypes : Option (List String)) (topK : ℕ) (excludeRated : Bool)
    (h : db.getUserRatingsWithEmbeddings userId = []) :
    computeUserTasteProfile db userId = ProfileResult.noRatings ∧
    recommendForUser db userId mediaTypes topK excludeRated = Except.ok [] := by
  have hp : computeUserTasteProfile db userId = ProfileResult.noRatings := by
    unfold computeUserTasteProfile
    rw [h]
    rfl
  refine ⟨hp, ?_⟩
  unfold recommendForUser
  rw [hp]

/-- C8 witness: the empty-ratings theorem at the all-empty collaborator
record. -/
theorem c8_witness :
    emptyDb.getUserRatingsWithEmbeddings "nobody" = [] ∧
    computeUserTasteProfile emptyDb "nobody" = ProfileResult.noRatings ∧
    recommendForUser emptyDb "nobody" none 5 true = Except.ok [] := by
  have h := c8_empty_ratings emptyDb "nobody" none 5 true rfl
  exact ⟨rfl, h.1, h.2⟩

/-- C2 counterexample: a raw numeric query of length 5 — neither 384 nor
8 — is not rejected: `recommend` serves it from the taste-space index and
returns a normal result, refuting "a sequence of any other length is
rejected as a caller error". -/
theorem c2_counterexample :
    (([(1 : ℚ), 2, 3, 4, 5].length ≠ 384) ∧ ([(1 : ℚ), 2, 3, 4, 5].length ≠ 8)) ∧
    recommend db2 noEmbed (Query.vec [1, 2, 3, 4, 5]) (some ["movie"]) 1 none none =
      [("movie", [formatItem tasteHit])] := by
  exact ⟨⟨by decide, by decide⟩, rfl⟩

/-- C2 amended: a raw numeric sequence of length exactly 384 is searched in
embedding space and a sequence of any other length (8 or otherwise) is
searched in taste space; no length validation is performed and `recommend`
always returns one bucket per requested media type. -/
theorem c2_amended (db : Db) (embedFn : String → List ℚ) (v : List ℚ)
    (mediaTypes : Option (List String)) (topK : ℕ) (minYear maxYear : Option ℤ) :
    (v.length = 384 →
      recommend db embedFn (Query.vec v) mediaTypes topK minYear maxYear =
        recommendCore db true v mediaTypes topK minYear maxYear) ∧
    (v.length ≠ 384 →
      recommend db embedFn (Query.vec v) mediaTypes topK minYear maxYear =
        recommendCore db false v mediaTypes topK minYear maxYear) ∧
    (recommend db embedFn (Query.vec v) mediaTypes topK minYear maxYear).map Prod.fst =
      mediaTypes.getD defaultMediaTypes := by
  refine ⟨fun h => ?_, fun h => ?_, ?_⟩
  · unfold recommend querySpace
    simp [h]
  · unfold recommend querySpace
    simp only []
    rw [show (v.length == 384) = false from beq_eq_false_iff_ne.mpr h]
  · unfold recommend recommendCore
    rw [List.map_map]
    exact (List.map_congr_left fun a _ => rfl).trans (List.map_id _)

/-- C2 witness: the amended dispatch applied to the length-5 query. -/
theorem c2_witness :
    ([(1 : ℚ), 2, 3, 4, 5].length ≠ 384) ∧
    recommend db2 noEmbed (Query.vec [1, 2, 3, 4, 5]) (some ["movie"]) 1 none none =
      recommendCore db2 false [1, 2, 3, 4, 5] (some ["movie"]) 1 none none :=
  ⟨by decide,
    (c2_amended db2 noEmbed [1, 2, 3, 4, 5] (some ["movie"]) 1 none none).2.1 (by decide)⟩

/-- C3 counterexample: `explain` on a missing item with a length-3 profile
vector fails with the not-found error, not the validation error — the item
lookup happens before any length validation, refuting "fails with
ValidationError ... regardless of whether the referenced item exists". -/
theorem c3_counterexample :
    ([(1 : ℚ), 2, 3].length ≠ 8) ∧
    explainMatch db3 "missing" [1, 2, 3] =
      Except.error (ExplainError.notFound "missing") := by
  exact ⟨by decide, rfl⟩

/-- C3 amended: `explain` validates the profile vector length after the
item lookup: for an existing item a vector of length ≠ 8 fails with the
length-validation error (a failure distinct from not-found, carried in a
different message) before any similarity computation, but a missing item
yields the not-found error even when the vector is malformed. -/
theorem c3_amended (db : Db) (itemId : String) (v : List ℚ) :
    (∀ item, db.getItemById itemId = some item → v.length ≠ 8 →
      explainMatch db itemId v =
        Except.error (ExplainError.userVectorLength v.length)) ∧
    (db.getItemById itemId = none →
      explainMatch db itemId v = Except.error (ExplainError.notFound itemId)) := by
  constructor
  · intro item hitem hlen
    unfold explainMatch
    rw [hitem]
    simp [hlen]
  · intro hnone
    unfold explainMatch
    rw [hnone]

/-- C3 witness: both branches of the amended behaviour at the concrete
one-item fixture. -/
theorem c3_witness :
    (db3.getItemById "a" = some item3 ∧ ([(1 : ℚ), 2, 3].length ≠ 8) ∧
      explainMatch db3 "a" [1, 2, 3] =
        Except.error (ExplainError.userVectorLength 3)) ∧
    (db3.getItemById "zzz" = none ∧
      explainMatch db3 "zzz" [1, 2, 3] =
        Except.error (ExplainError.notFound "zzz")) := by
  refine ⟨⟨by decide, by decide, ?_⟩, ⟨by decide, ?_⟩⟩
  · exact (c3_amended db3 "a" [1, 2, 3]).1 item3 (by decide) (by decide)
  · exact (c3_amended db3 "zzz" [1, 2, 3]).2 (by decide)

/-- C4: for an existing source item, `find_similar` with exclusion enabled
recommends from the source taste vector with `top_k + 1`, filters every
entry carrying the source id out of every media-type bucket, truncates each
bucket back to `top_k`, and the source item id never appears in any
returned bucket. -/
theorem c4_find_similar_excludes_source (db : Db) (embedFn : String → List ℚ)
    (itemId : String) (mediaTypes : Option (List String)) (topK : ℕ)
    (src : MediaItem) (_hk : 1 ≤ topK) (h : db.getItemById itemId = some src) :
    findSimilar db embedFn itemId mediaTypes topK true =
      Except.ok ((recommend db embedFn (Query.vec src.tasteVector) mediaTypes
        (topK + 1) none none).map
        (fun p => (p.1, (p.2.filter (fun it => it.id != itemId)).take topK))) ∧
    (∀ res, findSimilar db embedFn itemId mediaTypes topK true = Except.ok res →
      ∀ p ∈ res, ∀ it ∈ p.2, it.id ≠ itemId) := by
  have heq : findSimilar db embedFn itemId mediaTypes topK true =
      Except.ok ((recommend db embedFn (Query.vec src.tasteVector) mediaTypes
        (topK + 1) none none).map
        (fun p => (p.1, (p.2.filter (fun it => it.id != itemId)).take topK))) := by
    unfold findSimilar
    rw [h]
    rfl
  refine ⟨heq, ?_⟩
  intro res hres p hp it hit
  rw [heq] at hres
  injection hres with hres'
  subst hres'
  rcases List.mem_map.mp hp with ⟨q, _, rfl⟩
  have hmem := List.take_subset _ _ hit
  have hpred := List.of_mem_filter hmem
  simpa using hpred

/-- C4 witness: exclusion observed on a fixture whose taste index returns
the source item itself followed by a distinct item. -/
theorem c4_witness :
    (1 ≤ 1 ∧ db4.getItemById "src" = some item4 ∧
      findSimilar db4 noEmbed "src" (some ["movie"]) 1 true =
        Except.ok [("movie", [formatItem otherHit])]) ∧
    (formatItem otherHit).id ≠ "src" := by
  have h4 : db4.getItemById "src" = some item4 := rfl
  have hfind : findSimilar db4 noEmbed "src" (some ["movie"]) 1 true =
      Except.ok [("movie", [formatItem otherHit])] := rfl
  refine ⟨⟨le_refl 1, h4, hfind⟩, ?_⟩
  exact (c4_find_similar_excludes_source db4 noEmbed "src" (some ["movie"]) 1
      item4 (le_refl 1) h4).2 _ hfind _ (List.mem_singleton.mpr rfl) _
      (List.mem_singleton.mpr rfl)

/-- C5 counterexample: `explain` on an item whose stored taste vector is the
zero vector, with a zero profile vector, returns a result (the float code
divides by zero and yields NaN) instead of failing with a degenerate-vector
error — refuting "the operation fails with DegenerateVector instead of
returning a value". -/
theorem c5_counterexample :
    (explainMatch db5 "z" (List.replicate 8 (0 : ℚ))).isOk = true ∧
    normSq (List.replicate 8 (0 : ℚ)) = 0 := by
  exact ⟨rfl, normSq_replicate_zero 8⟩

/-- C5 amended: whenever `explain` succeeds, its overall similarity is the
dot product of the profile vector with the stored item taste vector divided
by the product of their norms (carried as the exact numerator and the exact
square of the denominator), and Cauchy–Schwarz bounds it:
`simDot² ≤ simNormSqProd`, so the value lies in [−1, 1] whenever the
denominator is nonzero; zero-norm inputs are not rejected — the division is
performed regardless and the call still returns a result. -/
theorem c5_amended (db : Db) (itemId : String) (v : List ℚ)
    (h : (explainMatch db itemId v).isOk = true) :
    (((explainMatch db itemId v).toOption.getD default).simDot) ^ 2 ≤
      ((explainMatch db itemId v).toOption.getD default).simNormSqProd ∧
    ∃ item, db.getItemById itemId = some item ∧
      ((explainMatch db itemId v).toOption.getD default).simDot =
        dot v item.tasteVector ∧
      ((explainMatch db itemId v).toOption.getD default).simNormSqProd =
        normSq v * normSq item.tasteVector := by
  cases hE : explainMatch db itemId v with
  | error e =>
    rw [hE] at h
    exact absurd h Bool.false_ne_true
  | ok r =>
    have hr : ∃ item, db.getItemById itemId = some item ∧ r = explainOk item v := by
      unfold explainMatch at hE
      split at hE
      · exact absurd hE (by simp)
      · next item heq =>
        split at hE
        · exact absurd hE (by simp)
        · split at hE
          · exact absurd hE (by simp)
          · injection hE with hE'
            exact ⟨item, heq, hE'.symm⟩
    rcases hr with ⟨item, hitem, rfl⟩
    exact ⟨dot_sq_le_normSq_mul v item.tasteVector, item, hitem, rfl, rfl⟩

/-- C5 witness: the bound instantiated at the zero-vector fixture, where the
success hypothesis holds by computation. -/
theorem c5_witness :
    (explainMatch db5 "z" (List.replicate 8 (0 : ℚ))).isOk = true ∧
    (((explainMatch db5 "z" (List.replicate 8 (0 : ℚ))).toOption.getD
        default).simDot) ^ 2 ≤
      ((explainMatch db5 "z" (List.replicate 8 (0 : ℚ))).toOption.getD
        default).simNormSqProd := by
  have hok : (explainMatch db5 "z" (List.replicate 8 (0 : ℚ))).isOk = true := rfl
  exact ⟨hok, (c5_amended db5 "z" (List.replicate 8 (0 : ℚ)) hok).1⟩

/-- C6 counterexample: an input containing a zero rating weight does not
fail — `np.average` only requires a nonzero weight total — so the profile
is computed (here reproducing the weight-1 item), refuting "any input
containing a rating weight that is zero or negative fails with
InvalidWeight". -/
theorem c6_counterexample :
    rating6a.rating = 0 ∧
    computeUserTasteProfile db6 "u" =
      ProfileResult.profile [5, 7] [2, 0] (breakdownOf [2, 0]) 2 := by
  refine ⟨rfl, ?_⟩
  have hrow : db6.getUserRatingsWithEmbeddings "u" = [rating6a, rating6b] := rfl
  have h1 : weightedAverage [0, 1] [[3, 4], [5, 7]] = some [5, 7] := by
    norm_num [weightedAverage, weightedSum, vadd, smul]
  have h2 : weightedAverage [0, 1] [[1, 0], [2, 0]] = some [2, 0] := by
    norm_num [weightedAverage, weightedSum, vadd, smul]
  have hmain : computeUserTasteProfile db6 "u" =
      (match weightedAverage [0, 1] [[3, 4], [5, 7]],
          weightedAverage [0, 1] [[1, 0], [2, 0]] with
        | some we, some wt => ProfileResult.profile we wt (breakdownOf wt) 2
        | _, _ => ProfileResult.weightsSumZero) := by
    unfold computeUserTasteProfile
    rw [hrow]
    rfl
  rw [hmain, h1, h2]

/-- C6 amended: a profile computed from a single rated item with any
nonzero weight — positive or negative — reproduces that item's embedding
and taste vector exactly; the code validates no weight sign, and fails
(with numpy's ZeroDivisionError, not an InvalidWeight error) only when the
weights sum to zero. -/
theorem c6_amended (db : Db) (userId : String) (r : ℚ) (e t : List ℚ)
    (hrow : db.getUserRatingsWithEmbeddings userId = [⟨r, e, t⟩])
    (hr : r ≠ 0) :
    computeUserTasteProfile db userId =
      ProfileResult.profile e t (breakdownOf t) 1 := by
  have h1 : weightedAverage [r] [e] = some e := by
    unfold weightedAverage
    have hs : ([r] : List ℚ).sum = r := by simp
    rw [hs, if_neg hr]
    exact congrArg some (smul_map_div_cancel r hr e)
  have h2 : weightedAverage [r] [t] = some t := by
    unfold weightedAverage
    have hs : ([r] : List ℚ).sum = r := by simp
    rw [hs, if_neg hr]
    exact congrArg some (smul_map_div_cancel r hr t)
  have hmain : computeUserTasteProfile db userId =
      (match weightedAverage [r] [e], weightedAverage [r] [t] with
        | some we, some wt => ProfileResult.profile we wt (breakdownOf wt) 1
        | _, _ => ProfileResult.weightsSumZero) := by
    unfold computeUserTasteProfile
    rw [hrow]
    rfl
  rw [hmain, h1, h2]

/-- C6 witness: the single-item exactness applied to a rating of weight −2,
which also exhibits that a negative weight is accepted. -/
theorem c6_witness :
    (db6.getUserRatingsWithEmbeddings "v" = [⟨-2, [3, 4], [1, 0]⟩] ∧
      (-2 : ℚ) ≠ 0 ∧ (-2 : ℚ) < 0) ∧
    computeUserTasteProfile db6 "v" =
      ProfileResult.profile [3, 4] [1, 0] (breakdownOf [1, 0]) 1 := by
  refine ⟨⟨rfl, by norm_num, by norm_num⟩, ?_⟩
  exact c6_amended db6 "v" (-2) [3, 4] [1, 0] rfl (by norm_num)

/-- C9 counterexample: with `min_year = 1000`, an item whose stored year is
the integer 0 — a known year violating the inclusive lower bound — is kept,
because Python truthiness (`if year:`) treats year 0 like an unknown year;
this refutes "filtered by the year bounds with min_year and max_year
treated as inclusive bounds and every item with an unknown year passing
the filter unaffected". -/
theorem c9_counterexample :
    (formatItem year0Item).year = some 0 ∧ ((0 : ℤ) < 1000) ∧
    (recommend db9 noEmbed (Query.vec [1, 2, 3, 4, 5, 6, 7, 8]) (some ["movie"])
      1 (some 1000) none).lookup "movie" = some [formatItem year0Item] := by
  exact ⟨rfl, by decide, rfl⟩

/-- C9 amended: each media type's candidate list is fetched with limit
`2 × top_k` from the index of the chosen space, then — when at least one
bound is truthy (set and nonzero) — filtered, then truncated to `top_k` and
formatted; the filter keeps items with unknown year or year 0 unaffected,
ignores a bound set to 0, and otherwise applies the bounds inclusively. -/
theorem c9_amended (db : Db) (embedFn : String → List ℚ) (q : Query)
    (mts : List String) (topK : ℕ) (minYear maxYear : Option ℤ)
    (mt : String) (hmt : mt ∈ mts) :
    ((recommend db embedFn q (some mts) topK minYear maxYear).lookup mt =
      some ((((if (querySpace embedFn q).1 then
            db.searchByEmbedding (querySpace embedFn q).2 mt (topK * 2)
          else
            db.searchByTaste (querySpace embedFn q).2 mt (topK * 2))
        |> fun items =>
            if intTruthy minYear || intTruthy maxYear then
              items.filter (fun it => yearPass minYear maxYear it.year)
            else items).take topK).map formatItem)) ∧
    yearPass minYear maxYear none = true ∧
    (∀ y : ℤ, y ≠ 0 →
      (yearPass minYear maxYear (some y) = true ↔
        ((intTruthy minYear = true → minYear.getD 0 ≤ y) ∧
         (intTruthy maxYear = true → y ≤ maxYear.getD 0)))) := by
  refine ⟨?_, rfl, ?_⟩
  · unfold recommend recommendCore
    exact lookup_map_self mts _ mt hmt
  · intro y hy
    have hty : ((y : ℤ) != 0) = true := by
      simpa using hy
    unfold yearPass intTruthy
    cases minYear with
    | none =>
      cases maxYear with
      | none => simp [hty]
      | some b =>
        by_cases hb : b = 0
        · subst hb
          simp [hty]
        · simp [hty, hb]
    | some a =>
      cases maxYear with
      | none =>
        by_cases ha : a = 0
        · subst ha
          simp [hty]
        · simp [hty, ha]
      | some b =>
        by_cases ha : a = 0 <;> by_cases hb : b = 0
        · subst ha; subst hb
          simp [hty]
        · subst ha
          simp [hty, hb]
        · subst hb
          simp [hty, ha]
        · simp [hty, ha, hb]

/-- C9 witness: the amended pipeline applied at a concrete media type with
both bounds set; an unknown-year item passes the filter. -/
theorem c9_witness :
    ("movie" ∈ ["movie"]) ∧ yearPass (some 1990) (some 2005) none = true :=
  ⟨by decide,
    (c9_amended db9 noEmbed (Query.vec [1, 2, 3, 4, 5, 6, 7, 8]) ["movie"] 2
      (some 1990) (some 2005) "movie" (by decide)).2.1⟩

/-- C10: every media-type list returned by `recommend`, `find_similar`, and
`recommend_for_user` contains at most `top_k` entries. -/
theorem c10_topk_bound (db : Db) (embedFn : String → List ℚ) (q : Query)
    (mediaTypes : Option (List String)) (topK : ℕ) (minYear maxYear : Option ℤ)
    (itemId userId : String) (excludeFlag : Bool) (mt : String) :
    ((((recommend db embedFn q mediaTypes topK minYear maxYear).lookup
        mt).getD []).length ≤ topK) ∧
    (∀ res, findSimilar db embedFn itemId mediaTypes topK excludeFlag =
        Except.ok res → (((res.lookup mt).getD []).length ≤ topK)) ∧
    (∀ res, recommendForUser db userId mediaTypes topK excludeFlag =
        Except.ok res → (((res.lookup mt).getD []).length ≤ topK)) := by
  have hrec : ∀ (useEmb : Bool) (sv : List ℚ) (mts : Option (List String))
      (k : ℕ) (my My : Option ℤ),
      ∀ p ∈ recommendCore db useEmb sv mts k my My, p.2.length ≤ k := by
    intro useEmb sv mts k my My p hp
    rcases List.mem_map.mp hp with ⟨m, _, rfl⟩
    simp only [List.length_map, List.length_take]
    exact min_le_left _ _
  refine ⟨?_, ?_, ?_⟩
  · exact lookup_getD_length_le topK mt _ (hrec _ _ _ _ _ _)
  · intro res hres
    cases excludeFlag with
    | false =>
      unfold findSimilar at hres
      split at hres
      · exact absurd hres (by simp)
      · next src heq =>
        rw [if_neg (by simp)] at hres
        injection hres with hres'
        subst hres'
        exact lookup_getD_length_le topK mt _ (hrec _ _ _ _ _ _)
    | true =>
      unfold findSimilar at hres
      split at hres
      · exact absurd hres (by simp)
      · next src heq =>
        rw [if_pos rfl] at hres
        injection hres with hres'
        subst hres'
        apply lookup_getD_length_le
        intro p hp
        rcases List.mem_map.mp hp with ⟨p', _, rfl⟩
        simp only [List.length_take]
        exact min_le_left _ _
  · intro res hres
    unfold recommendForUser at hres
    split at hres
    · injection hres with hres'
      subst hres'
      simp
    · exact absurd hres (by simp)
    · injection hres with hres'
      subst hres'
      apply lookup_getD_length_le
      intro p hp
      rcases List.mem_map.mp hp with ⟨m, _, rfl⟩
      simp only [List.length_map, List.length_take]
      exact min_le_left _ _

/-- C10 witness: the bound instantiated for each of the three operations at
concrete inputs. -/
theorem c10_witness :
    (((recommend emptyDb noEmbed (Query.vec []) none 3 none none).lookup
        "movie").getD []).length ≤ 3 ∧
    ((([("movie", [formatItem otherHit])] :
        List (String × List FormattedItem)).lookup "movie").getD []).length ≤ 1 ∧
    ((([] : List (String × List FormattedItem)).lookup "movie").getD
        []).length ≤ 3 := by
  refine ⟨?_, ?_, ?_⟩
  · exact (c10_topk_bound emptyDb noEmbed (Query.vec []) none 3 none none
      "x" "u" true "movie").1
  · exact (c10_topk_bound db4 noEmbed (Query.vec []) (some ["movie"]) 1 none
      none "src" "u" true "movie").2.1 [("movie", [formatItem otherHit])] rfl
  · exact (c10_topk_bound emptyDb noEmbed (Query.vec []) none 3 none none
      "x" "u" true "movie").2.2 [] rfl

end Spectra
